import Mathlib

/-!
Shallow embedding of the Ragnoria ProudNet-compatible login-server core
(crates/ro2-common and crates/ro2-login), together with theorems checking
the natural-language specification against it.

Bytes are modelled as `ℕ` (a `u8` value is a natural below 256); byte
sequences (`Vec<u8>`, `&[u8]`) as `List ℕ`; Rust's `Result` as `Except`,
with one error constructor per distinct `anyhow!` message of the embedded
function.
-/

namespace Ragnoria

/-- Decidable equality for `Except`, so concrete runs of the embedded
fallible functions can be settled by `decide`. -/
instance {ε α : Type _} [DecidableEq ε] [DecidableEq α] : DecidableEq (Except ε α) :=
  fun x y =>
    match x, y with
    | .ok a, .ok b =>
      if h : a = b then .isTrue (congrArg Except.ok h)
      else .isFalse (fun he => h (Except.ok.inj he))
    | .error a, .error b =>
      if h : a = b then .isTrue (congrArg Except.error h)
      else .isFalse (fun he => h (Except.error.inj he))
    | .ok _, .error _ => .isFalse (fun he => Except.noConfusion he)
    | .error _, .ok _ => .isFalse (fun he => Except.noConfusion he)

/-! ## Frame codec (crates/ro2-common/src/packet/framing.rs) -/

/-- `PACKET_MAGIC`: magic number identifying RO2 packets (little endian). -/
def PACKET_MAGIC : ℕ := 0x5713

/-- `MIN_PACKET_SIZE`: magic + size byte + 1-byte varint + empty payload. -/
def MIN_PACKET_SIZE : ℕ := 4

/-- `MAX_PACKET_SIZE`: maximum payload size accepted by `from_bytes`. -/
def MAX_PACKET_SIZE : ℕ := 65536

/-- `PacketFrame`: the outer framing layer (magic + payload). -/
structure PacketFrame where
  magic : ℕ
  payload : List ℕ
  deriving DecidableEq, Repr

namespace PacketFrame

/-- `PacketFrame::new`: a frame with the standard magic. -/
def new (payload : List ℕ) : PacketFrame :=
  { magic := PACKET_MAGIC, payload := payload }

end PacketFrame

/-- One constructor per `anyhow!` error message of `from_bytes`/`read_varint`.
`incomplete` corresponds to the message "Incomplete packet", the only one
the connection runtime treats as transient. -/
inductive FrameError where
  /-- "Packet too short" (fewer than `MIN_PACKET_SIZE` bytes). -/
  | tooShort : FrameError
  /-- "Invalid packet magic". -/
  | badMagic : FrameError
  /-- "No data for varint size byte". -/
  | varintNoSize : FrameError
  /-- "Not enough data for {w}-byte varint". -/
  | varintTruncated : ℕ → FrameError
  /-- "Invalid varint size byte: {b}". -/
  | varintBadWidth : ℕ → FrameError
  /-- "Payload size too large". -/
  | oversize : FrameError
  /-- "Incomplete packet". -/
  | incomplete : FrameError
  deriving DecidableEq, Repr

/-- The runtime's test `e.to_string().contains("Incomplete packet")`
(ro2-login/src/main.rs, `process_buffer`): true exactly for the
"Incomplete packet" error. -/
def FrameError.isIncomplete : FrameError → Bool
  | .incomplete => true
  | _ => false

/-- `write_varint`: width byte (1, 2, or 4) followed by that many
little-endian value bytes.  The casts `value as u8` / `as u16` are the
moduli; under each branch guard they do not truncate. -/
def write_varint (value : ℕ) : List ℕ :=
  if value ≤ 0xFF then
    [1, value % 256]
  else if value ≤ 0xFFFF then
    [2, value % 256, value / 256 % 256]
  else
    [4, value % 256, value / 256 % 256, value / 65536 % 256, value / 16777216 % 256]

/-- `read_varint` on the bytes remaining at the cursor; returns the decoded
value and the number of bytes the varint occupied (size byte included). -/
def read_varint (rest : List ℕ) : Except FrameError (ℕ × ℕ) :=
  match rest with
  | [] => .error .varintNoSize
  | sizeByte :: r =>
    if sizeByte = 1 then
      match r with
      | [] => .error (.varintTruncated 1)
      | b0 :: _ => .ok (b0, 2)
    else if sizeByte = 2 then
      if r.length < 2 then .error (.varintTruncated 2)
      else .ok (r.getD 0 0 + 256 * r.getD 1 0, 3)
    else if sizeByte = 4 then
      if r.length < 4 then .error (.varintTruncated 4)
      else .ok (r.getD 0 0 + 256 * r.getD 1 0 + 65536 * r.getD 2 0
                  + 16777216 * r.getD 3 0, 5)
    else .error (.varintBadWidth sizeByte)

/-- `PacketFrame::to_bytes`: magic (u16 LE), payload length as varint
(`payload.len() as u32`), then the payload verbatim. -/
def PacketFrame.to_bytes (f : PacketFrame) : List ℕ :=
  [f.magic % 256, f.magic / 256 % 256]
    ++ write_varint (f.payload.length % 4294967296)
    ++ f.payload

/-- `PacketFrame::from_bytes`: returns the frame and the number of bytes
consumed.  The `bind` is Rust's `?` on `read_varint(&mut cursor)?`. -/
def PacketFrame.from_bytes (data : List ℕ) : Except FrameError (PacketFrame × ℕ) :=
  if data.length < MIN_PACKET_SIZE then .error .tooShort
  else
    let magic := data.getD 0 0 + 256 * data.getD 1 0
    if magic ≠ PACKET_MAGIC then .error .badMagic
    else
      (read_varint (data.drop 2)).bind fun v =>
        if v.1 > MAX_PACKET_SIZE then .error .oversize
        else
          let offset := 2 + v.2
          if data.length < offset + v.1 then .error .incomplete
          else .ok ({ magic := magic, payload := (data.drop offset).take v.1 },
                    offset + v.1)

/-! ## AES-128 block cipher

The repository's `decrypt_aes_ecb` (crates/ro2-common/src/crypto/proudnet.rs)
calls `Aes128::new` / `decrypt_block` from the external `aes` crate, which
implements FIPS-197 AES-128.  The block cipher is reproduced here so that
the repository's ECB/padding layer can be evaluated on concrete inputs. -/

/-- The AES forward S-box (FIPS-197 figure 7). -/
def sbox : List ℕ := [
  0x63, 0x7c, 0x77, 0x7b, 0xf2, 0x6b, 0x6f, 0xc5, 0x30, 0x01, 0x67, 0x2b, 0xfe, 0xd7, 0xab, 0x76,
  0xca, 0x82, 0xc9, 0x7d, 0xfa, 0x59, 0x47, 0xf0, 0xad, 0xd4, 0xa2, 0xaf, 0x9c, 0xa4, 0x72, 0xc0,
  0xb7, 0xfd, 0x93, 0x26, 0x36, 0x3f, 0xf7, 0xcc, 0x34, 0xa5, 0xe5, 0xf1, 0x71, 0xd8, 0x31, 0x15,
  0x04, 0xc7, 0x23, 0xc3, 0x18, 0x96, 0x05, 0x9a, 0x07, 0x12, 0x80, 0xe2, 0xeb, 0x27, 0xb2, 0x75,
  0x09, 0x83, 0x2c, 0x1a, 0x1b, 0x6e, 0x5a, 0xa0, 0x52, 0x3b, 0xd6, 0xb3, 0x29, 0xe3, 0x2f, 0x84,
  0x53, 0xd1, 0x00, 0xed, 0x20, 0xfc, 0xb1, 0x5b, 0x6a, 0xcb, 0xbe, 0x39, 0x4a, 0x4c, 0x58, 0xcf,
  0xd0, 0xef, 0xaa, 0xfb, 0x43, 0x4d, 0x33, 0x85, 0x45, 0xf9, 0x02, 0x7f, 0x50, 0x3c, 0x9f, 0xa8,
  0x51, 0xa3, 0x40, 0x8f, 0x92, 0x9d, 0x38, 0xf5, 0xbc, 0xb6, 0xda, 0x21, 0x10, 0xff, 0xf3, 0xd2,
  0xcd, 0x0c, 0x13, 0xec, 0x5f, 0x97, 0x44, 0x17, 0xc4, 0xa7, 0x7e, 0x3d, 0x64, 0x5d, 0x19, 0x73,
  0x60, 0x81, 0x4f, 0xdc, 0x22, 0x2a, 0x90, 0x88, 0x46, 0xee, 0xb8, 0x14, 0xde, 0x5e, 0x0b, 0xdb,
  0xe0, 0x32, 0x3a, 0x0a, 0x49, 0x06, 0x24, 0x5c, 0xc2, 0xd3, 0xac, 0x62, 0x91, 0x95, 0xe4, 0x79,
  0xe7, 0xc8, 0x37, 0x6d, 0x8d, 0xd5, 0x4e, 0xa9, 0x6c, 0x56, 0xf4, 0xea, 0x65, 0x7a, 0xae, 0x08,
  0xba, 0x78, 0x25, 0x2e, 0x1c, 0xa6, 0xb4, 0xc6, 0xe8, 0xdd, 0x74, 0x1f, 0x4b, 0xbd, 0x8b, 0x8a,
  0x70, 0x3e, 0xb5, 0x66, 0x48, 0x03, 0xf6, 0x0e, 0x61, 0x35, 0x57, 0xb9, 0x86, 0xc1, 0x1d, 0x9e,
  0xe1, 0xf8, 0x98, 0x11, 0x69, 0xd9, 0x8e, 0x94, 0x9b, 0x1e, 0x87, 0xe9, 0xce, 0x55, 0x28, 0xdf,
  0x8c, 0xa1, 0x89, 0x0d, 0xbf, 0xe6, 0x42, 0x68, 0x41, 0x99, 0x2d, 0x0f, 0xb0, 0x54, 0xbb, 0x16]

/-- The AES inverse S-box (FIPS-197 figure 14). -/
def invSbox : List ℕ := [
  0x52, 0x09, 0x6a, 0xd5, 0x30, 0x36, 0xa5, 0x38, 0xbf, 0x40, 0xa3, 0x9e, 0x81, 0xf3, 0xd7, 0xfb,
  0x7c, 0xe3, 0x39, 0x82, 0x9b, 0x2f, 0xff, 0x87, 0x34, 0x8e, 0x43, 0x44, 0xc4, 0xde, 0xe9, 0xcb,
  0x54, 0x7b, 0x94, 0x32, 0xa6, 0xc2, 0x23, 0x3d, 0xee, 0x4c, 0x95, 0x0b, 0x42, 0xfa, 0xc3, 0x4e,
  0x08, 0x2e, 0xa1, 0x66, 0x28, 0xd9, 0x24, 0xb2, 0x76, 0x5b, 0xa2, 0x49, 0x6d, 0x8b, 0xd1, 0x25,
  0x72, 0xf8, 0xf6, 0x64, 0x86, 0x68, 0x98, 0x16, 0xd4, 0xa4, 0x5c, 0xcc, 0x5d, 0x65, 0xb6, 0x92,
  0x6c, 0x70, 0x48, 0x50, 0xfd, 0xed, 0xb9, 0xda, 0x5e, 0x15, 0x46, 0x57, 0xa7, 0x8d, 0x9d, 0x84,
  0x90, 0xd8, 0xab, 0x00, 0x8c, 0xbc, 0xd3, 0x0a, 0xf7, 0xe4, 0x58, 0x05, 0xb8, 0xb3, 0x45, 0x06,
  0xd0, 0x2c, 0x1e, 0x8f, 0xca, 0x3f, 0x0f, 0x02, 0xc1, 0xaf, 0xbd, 0x03, 0x01, 0x13, 0x8a, 0x6b,
  0x3a, 0x91, 0x11, 0x41, 0x4f, 0x67, 0xdc, 0xea, 0x97, 0xf2, 0xcf, 0xce, 0xf0, 0xb4, 0xe6, 0x73,
  0x96, 0xac, 0x74, 0x22, 0xe7, 0xad, 0x35, 0x85, 0xe2, 0xf9, 0x37, 0xe8, 0x1c, 0x75, 0xdf, 0x6e,
  0x47, 0xf1, 0x1a, 0x71, 0x1d, 0x29, 0xc5, 0x89, 0x6f, 0xb7, 0x62, 0x0e, 0xaa, 0x18, 0xbe, 0x1b,
  0xfc, 0x56, 0x3e, 0x4b, 0xc6, 0xd2, 0x79, 0x20, 0x9a, 0xdb, 0xc0, 0xfe, 0x78, 0xcd, 0x5a, 0xf4,
  0x1f, 0xdd, 0xa8, 0x33, 0x88, 0x07, 0xc7, 0x31, 0xb1, 0x12, 0x10, 0x59, 0x27, 0x80, 0xec, 0x5f,
  0x60, 0x51, 0x7f, 0xa9, 0x19, 0xb5, 0x4a, 0x0d, 0x2d, 0xe5, 0x7a, 0x9f, 0x93, 0xc9, 0x9c, 0xef,
  0xa0, 0xe0, 0x3b, 0x4d, 0xae, 0x2a, 0xf5, 0xb0, 0xc8, 0xeb, 0xbb, 0x3c, 0x83, 0x53, 0x99, 0x61,
  0x17, 0x2b, 0x04, 0x7e, 0xba, 0x77, 0xd6, 0x26, 0xe1, 0x69, 0x14, 0x63, 0x55, 0x21, 0x0c, 0x7d]

/-- Round constants for the AES key schedule. -/
def rcon : List ℕ := [0x01, 0x02, 0x04, 0x08, 0x10, 0x20, 0x40, 0x80, 0x1b, 0x36]

/-- Multiplication by x in GF(2^8) modulo x^8+x^4+x^3+x+1 (bytes below 256). -/
def xtime (b : ℕ) : ℕ :=
  if b < 128 then 2 * b else (2 * b) % 256 ^^^ 0x1b

/-- Iterated Russian-peasant multiplication in GF(2^8); 8 steps suffice for bytes. -/
def gmulAux : ℕ → ℕ → ℕ → ℕ → ℕ
  | 0, _, _, acc => acc
  | n + 1, a, b, acc =>
    gmulAux n (xtime a) (b / 2) (if b % 2 = 1 then acc ^^^ a else acc)

/-- Multiplication in GF(2^8). -/
def gmul (a b : ℕ) : ℕ := gmulAux 8 a b 0

/-- Bytewise xor of two equal-length byte lists. -/
def xorBytes (a b : List ℕ) : List ℕ := List.zipWith (· ^^^ ·) a b

/-- `SubWord` of the key schedule. -/
def subWord (w : List ℕ) : List ℕ := w.map (fun b => sbox.getD b 0)

/-- `RotWord` of the key schedule. -/
def rotWord (w : List ℕ) : List ℕ := w.drop 1 ++ w.take 1

/-- Extend a list of 4-byte key-schedule words by `n` further words. -/
def expandKeyWords : ℕ → List (List ℕ) → List (List ℕ)
  | 0, ws => ws
  | n + 1, ws =>
    let i := ws.length
    let prev := ws.getD (i - 1) []
    let temp :=
      if i % 4 = 0 then
        xorBytes (subWord (rotWord prev)) [rcon.getD (i / 4 - 1) 0, 0, 0, 0]
      else prev
    expandKeyWords n (ws ++ [xorBytes (ws.getD (i - 4) []) temp])

/-- AES-128 key expansion: the eleven 16-byte round keys (`Aes128::new`). -/
def keyExpansion (key : List ℕ) : List (List ℕ) :=
  let words := expandKeyWords 40
    [key.take 4, (key.drop 4).take 4, (key.drop 8).take 4, (key.drop 12).take 4]
  (List.range 11).map fun r =>
    words.getD (4 * r) [] ++ words.getD (4 * r + 1) []
      ++ words.getD (4 * r + 2) [] ++ words.getD (4 * r + 3) []

/-- `AddRoundKey` on the flat 16-byte column-major state. -/
def addRoundKey (rk s : List ℕ) : List ℕ := xorBytes s rk

/-- `InvShiftRows` on the flat 16-byte column-major state. -/
def invShiftRows (s : List ℕ) : List ℕ :=
  [s.getD 0 0, s.getD 13 0, s.getD 10 0, s.getD 7 0,
   s.getD 4 0, s.getD 1 0, s.getD 14 0, s.getD 11 0,
   s.getD 8 0, s.getD 5 0, s.getD 2 0, s.getD 15 0,
   s.getD 12 0, s.getD 9 0, s.getD 6 0, s.getD 3 0]

/-- `InvSubBytes`. -/
def invSubBytes (s : List ℕ) : List ℕ := s.map (fun b => invSbox.getD b 0)

/-- `InvMixColumns` on one column. -/
def invMixColumn (a0 a1 a2 a3 : ℕ) : List ℕ :=
  [gmul 14 a0 ^^^ gmul 11 a1 ^^^ gmul 13 a2 ^^^ gmul 9 a3,
   gmul 9 a0 ^^^ gmul 14 a1 ^^^ gmul 11 a2 ^^^ gmul 13 a3,
   gmul 13 a0 ^^^ gmul 9 a1 ^^^ gmul 14 a2 ^^^ gmul 11 a3,
   gmul 11 a0 ^^^ gmul 13 a1 ^^^ gmul 9 a2 ^^^ gmul 14 a3]

/-- `InvMixColumns` on the flat 16-byte state. -/
def invMixColumns (s : List ℕ) : List ℕ :=
  invMixColumn (s.getD 0 0) (s.getD 1 0) (s.getD 2 0) (s.getD 3 0)
    ++ invMixColumn (s.getD 4 0) (s.getD 5 0) (s.getD 6 0) (s.getD 7 0)
    ++ invMixColumn (s.getD 8 0) (s.getD 9 0) (s.getD 10 0) (s.getD 11 0)
    ++ invMixColumn (s.getD 12 0) (s.getD 13 0) (s.getD 14 0) (s.getD 15 0)

/-- One inner inverse round (rounds 9 down to 1 of `InvCipher`). -/
def invRound (rks : List (List ℕ)) (r : ℕ) (s : List ℕ) : List ℕ :=
  invMixColumns (addRoundKey (rks.getD r []) (invSubBytes (invShiftRows s)))

/-- FIPS-197 `InvCipher`: AES-128 block decryption with expanded round keys
(the `decrypt_block` of the `aes` crate). -/
def decrypt_block (rks : List (List ℕ)) (block : List ℕ) : List ℕ :=
  let s10 := addRoundKey (rks.getD 10 []) block
  let s1 := (List.range 9).foldl (fun s i => invRound rks (9 - i) s) s10
  addRoundKey (rks.getD 0 []) (invSubBytes (invShiftRows s1))

/-! ## Crypto engine (crates/ro2-common/src/crypto/proudnet.rs) -/

/-- One constructor per `anyhow!` error message in the embedded crypto
functions. -/
inductive CryptoError where
  /-- "No AES session key set". -/
  | noSessionKey : CryptoError
  /-- "Invalid AES data length: .. (must be multiple of 16)". -/
  | invalidAesLength : CryptoError
  /-- "Not a 0x25 packet". -/
  | notPacket25 : CryptoError
  /-- "0x25 packet too short". -/
  | packet25TooShort : CryptoError
  deriving DecidableEq, Repr

/-- The part of `ProudNetCrypto` the AES functions read: the optional
16-byte session key.  (The RSA key pair lives in the external `rsa` crate
and is not consulted by `decrypt_aes_ecb` / `decrypt_packet_0x25`.) -/
structure ProudNetCrypto where
  aes_key : Option (List ℕ)
  deriving DecidableEq, Repr

/-- Rust's `data.chunks(16)`: consecutive 16-byte chunks, the final chunk
shorter when the length is not a multiple of 16. -/
def chunks16 : List ℕ → List (List ℕ)
  | [] => []
  | b0 :: b1 :: b2 :: b3 :: b4 :: b5 :: b6 :: b7 ::
    b8 :: b9 :: b10 :: b11 :: b12 :: b13 :: b14 :: b15 :: rest =>
      [b0, b1, b2, b3, b4, b5, b6, b7, b8, b9, b10, b11, b12, b13, b14, b15]
        :: chunks16 rest
  | rest => [rest]

/-- The block-decryption loop of `decrypt_aes_ecb`: decrypt each 16-byte
chunk with the expanded key and concatenate. -/
def aesEcbDecryptBlocks (key data : List ℕ) : List ℕ :=
  let cipher := keyExpansion key
  (chunks16 data).foldl (fun acc chunk => acc ++ decrypt_block cipher chunk) []

/-- `ProudNetCrypto::decrypt_aes_ecb`: require the session key; require the
length to be a multiple of 16 (zero included); block-decrypt; then strip
PKCS#7 padding only when the final byte lies in [1,16], returning the data
unchanged otherwise. -/
def decrypt_aes_ecb (crypto : ProudNetCrypto) (data : List ℕ) :
    Except CryptoError (List ℕ) :=
  match crypto.aes_key with
  | none => .error .noSessionKey
  | some key =>
    if ¬ data.length % 16 = 0 then .error .invalidAesLength
    else
      let decrypted := aesEcbDecryptBlocks key data
      match decrypted.getLast? with
      | some padding_len =>
        if 0 < padding_len ∧ padding_len ≤ 16 then
          .ok (decrypted.take (decrypted.length - padding_len))
        else .ok decrypted
      | none => .ok decrypted

/-- `ProudNetCrypto::decrypt_packet_0x25`: insist the first payload byte is
exactly `0x25`, skip the 4 header bytes, and AES-decrypt the rest. -/
def decrypt_packet_0x25 (crypto : ProudNetCrypto) (payload : List ℕ) :
    Except CryptoError (List ℕ) :=
  if payload.isEmpty ∨ ¬ payload.getD 0 0 = 0x25 then .error .notPacket25
  else if payload.length < 4 then .error .packet25TooShort
  else decrypt_aes_ecb crypto (payload.drop 4)

/-! ## ProudNet protocol handler (crates/ro2-common/src/protocol/proudnet.rs) -/

/-- `u16::to_le_bytes` of a value below 2^16. -/
def toLE16 (n : ℕ) : List ℕ := [n % 256, n / 256 % 256]

/-- `u32::to_le_bytes` of a value below 2^32. -/
def toLE32 (n : ℕ) : List ℕ :=
  [n % 256, n / 256 % 256, n / 65536 % 256, n / 16777216 % 256]

/-- `FLASH_POLICY_XML`: the fixed cross-domain policy with trailing NUL,
sent without framing. -/
def FLASH_POLICY_XML : List ℕ :=
  ("<?xml version=\"1.0\"?><cross-domain-policy>"
    ++ "<allow-access-from domain=\"*\" to-ports=\"*\" />"
    ++ "</cross-domain-policy>").toList.map Char.toNat ++ [0]

/-- `ProudNetSettings`: the ten u32 fields of the 0x04 settings block. -/
structure ProudNetSettings where
  flags : ℕ
  version : ℕ
  unknown1 : ℕ
  unknown2 : ℕ
  timeout_secs : ℕ
  aes_key_bits : ℕ
  fast_encrypt_key_bits : ℕ
  unknown_flag1 : ℕ
  unknown_flag2 : ℕ
  unknown3 : ℕ
  deriving DecidableEq, Repr

/-- `ProudNetSettings::default`: the observed working values. -/
def ProudNetSettings.default : ProudNetSettings :=
  { flags := 0x00000000
    version := 0x01000000
    unknown1 := 0x27c00001
    unknown2 := 0x00010009
    timeout_secs := 60
    aes_key_bits := 128
    fast_encrypt_key_bits := 512
    unknown_flag1 := 1
    unknown_flag2 := 1
    unknown3 := 0x02000000 }

/-- The ten `to_le_bytes` writes of the settings block inside
`build_encryption_handshake`. -/
def settingsBytes (s : ProudNetSettings) : List ℕ :=
  toLE32 s.flags ++ toLE32 s.version ++ toLE32 s.unknown1 ++ toLE32 s.unknown2
    ++ toLE32 s.timeout_secs ++ toLE32 s.aes_key_bits
    ++ toLE32 s.fast_encrypt_key_bits ++ toLE32 s.unknown_flag1
    ++ toLE32 s.unknown_flag2 ++ toLE32 s.unknown3

/-- `ProudNetHandler::build_encryption_handshake`.  `derBytes` is the PKCS#1
DER encoding of the server RSA public key produced by the external `rsa`
crate (`to_pkcs1_der`).  The framing is written by hand with a 2-byte
varint, not through `PacketFrame::to_bytes`. -/
def build_encryption_handshake (s : ProudNetSettings) (derBytes : List ℕ) : List ℕ :=
  let payload := 0x04 :: (settingsBytes s ++ toLE16 (derBytes.length % 65536) ++ derBytes)
  [0x13, 0x57, 0x02] ++ toLE16 (payload.length % 65536) ++ payload

/-- `ProudNetHandler::handle_heartbeat_request`: echo the first two payload
bytes (`payload[0]`, `payload[1]` — the comment in the source assumes the
opcode byte has been stripped, but callers pass the full payload) inside
a fixed 17-byte `0x1D` reply, framed. -/
def handle_heartbeat_request (payload : List ℕ) : Except Unit (Option (List ℕ)) :=
  let sequence :=
    if 2 ≤ payload.length then (payload.getD 0 0, payload.getD 1 0) else (0, 0)
  .ok (some (PacketFrame.new
    [0x1D, sequence.1, sequence.2,
     0x00, 0x00, 0x00, 0x00, 0x00, 0x00, 0x00, 0x00,
     0x00, 0x00, 0x00, 0x00,
     0x00, 0x00]).to_bytes)

/-- The mutable per-connection fields of `ProudNetHandler`.
`aes_key` mirrors the key installed into the owned `ProudNetCrypto`. -/
structure HandlerState where
  session_id : Option ℕ
  encryption_ready : Bool
  client_version : Option ℕ
  aes_key : Option (List ℕ)
  deriving DecidableEq, Repr

/-- Field values set by `ProudNetHandler::with_shared_crypto`
(the per-connection initial state; the shared crypto carries no AES key). -/
def HandlerState.initial : HandlerState :=
  { session_id := none, encryption_ready := false,
    client_version := none, aes_key := none }

/-- The effects a `handle` call draws from outside the handler: the RSA
decryption (OAEP-SHA1 with PKCS#1-v1.5 and OAEP-SHA256 fallbacks, `none`
when all schemes fail), the `rand::random` session id and server GUID, and
the ASCII bytes of the remote IP address. -/
structure HandlerEnv where
  rsaDecrypt : List ℕ → Option (List ℕ)
  randSessionId : ℕ
  serverGuid : List ℕ
  remoteIp : List ℕ

/-- `ProudNetHandler::handle_encryption_response` (opcode 0x05): parse the
key length, RSA-decrypt the ciphertext, install the first 16 bytes as the
AES key when long enough, mark encryption ready, reply with a framed
single-byte `0x06`. -/
def handle_encryption_response (env : HandlerEnv) (st : HandlerState)
    (payload : List ℕ) : HandlerState × Except Unit (Option (List ℕ)) :=
  if payload.length < 5 then (st, .error ())
  else
    let opcode := payload.getD 0 0
    let key_len := payload.getD 2 0 + 256 * payload.getD 3 0
    if ¬ opcode = 0x05 then (st, .error ())
    else if payload.length < 4 + key_len then (st, .error ())
    else
      let encrypted_key := (payload.drop 4).take key_len
      match env.rsaDecrypt encrypted_key with
      | some session_key =>
        let st1 :=
          if 16 ≤ session_key.length then
            { st with aes_key := some (session_key.take 16) }
          else st
        ({ st1 with encryption_ready := true },
         .ok (some (PacketFrame.new [0x06]).to_bytes))
      | none => (st, .error ())

/-- `ProudNetHandler::build_connection_success` (0x0A reply). -/
def build_connection_success (env : HandlerEnv) (st : HandlerState) : List ℕ :=
  (PacketFrame.new
    (0x0A :: (toLE32 (st.session_id.getD 0) ++ env.serverGuid
      ++ [0x01, 0x00, 0x01, 0x01]
      ++ (env.remoteIp.length % 256) :: env.remoteIp
      ++ [0xac, 0xf6]))).to_bytes

/-- `ProudNetHandler::handle_version_check` (opcode 0x07): require 23 bytes,
record the client version, assign a random session id, reply with 0x0A.
No encryption-state check is performed. -/
def handle_version_check (env : HandlerEnv) (st : HandlerState)
    (payload : List ℕ) : HandlerState × Except Unit (Option (List ℕ)) :=
  if payload.length < 23 then (st, .error ())
  else
    let version := payload.getD 1 0 + 256 * payload.getD 2 0
    let st1 := { st with client_version := some version,
                         session_id := some env.randSessionId }
    (st1, .ok (some (build_connection_success env st1)))

/-- `ProudNetHandler::handle`: dispatch on the outer opcode.  The returned
state is the handler after the call (the source mutates `self`). -/
def ProudNetHandler.handle (env : HandlerEnv) (st : HandlerState)
    (opcode : ℕ) (payload : List ℕ) :
    HandlerState × Except Unit (Option (List ℕ)) :=
  if opcode = 0x01 then (st, .ok none)
  else if opcode = 0x2F then (st, .ok (some FLASH_POLICY_XML))
  else if opcode = 0x04 then (st, .ok none)
  else if opcode = 0x05 then handle_encryption_response env st payload
  else if opcode = 0x07 then handle_version_check env st payload
  else if opcode = 0x1B then (st, handle_heartbeat_request payload)
  else if opcode = 0x1C then (st, .ok none)
  else (st, .ok none)

/-- Handler states reachable from a fresh connection by any sequence of
`handle` calls (each call may observe different random values, hence the
quantified environment in `step`). -/
inductive HandlerState.Reachable : HandlerState → Prop
  | init : HandlerState.Reachable HandlerState.initial
  | step (env : HandlerEnv) (st : HandlerState) (opcode : ℕ) (payload : List ℕ) :
      HandlerState.Reachable st →
      HandlerState.Reachable (ProudNetHandler.handle env st opcode payload).1

/-- The two writes of the login server's 0x2F arm
(ro2-login/src/main.rs, `handle_packet`): the raw policy XML from
`handle(0x2F, ..)`, then the `build_encryption_handshake` frame. -/
def handle_packet_0x2F (env : HandlerEnv) (st : HandlerState)
    (s : ProudNetSettings) (derBytes : List ℕ) (payload : List ℕ) : List (List ℕ) :=
  match (ProudNetHandler.handle env st 0x2F payload).2 with
  | .ok (some response) => [response, build_encryption_handshake s derBytes]
  | _ => []

/-! ## Connection runtime buffer loop (crates/ro2-login/src/main.rs) -/

/-- The `loop` body of `ClientConnection::process_buffer`, with an explicit
fuel argument to express the recursion structurally.  Each successful parse
consumes at least 4 bytes, so `fuel := buffer.length` never runs out
(`process_buffer_loop_fuel_irrelevant` below); the fuel-0 branch returns the
break outcome.  Results are the final buffer contents and the parsed frames
handed to `handle_packet`, in order. -/
def process_buffer_loop : ℕ → List ℕ → List ℕ × List PacketFrame
  | 0, buffer => (buffer, [])
  | fuel + 1, buffer =>
    if buffer.length < 4 then (buffer, [])
    else if ¬ buffer.take 2 = [0x13, 0x57] then ([], [])
    else
      match PacketFrame.from_bytes buffer with
      | .ok (p, size) =>
        let r := process_buffer_loop fuel (buffer.drop size)
        (r.1, p :: r.2)
      | .error e => if e.isIncomplete then (buffer, []) else ([], [])

/-- `ClientConnection::process_buffer`: drain as many frames as possible;
keep the buffer when more data is needed (length below 4, or the
"Incomplete packet" error); clear it on a bad magic or any other parse
error. -/
def process_buffer (buffer : List ℕ) : List ℕ × List PacketFrame :=
  process_buffer_loop buffer.length buffer

/-- The raw Flash policy request string (22 ASCII bytes, no NUL). -/
def rawPolicyRequest : List ℕ :=
  "<policy-file-request/>".toList.map Char.toNat

/-! ## Message dispatcher (crates/ro2-common/src/protocol/dispatcher.rs and
protocol/handler.rs) -/

/-- `GameContext`: the per-connection state handed to game-message handlers
(the chrono timestamps of `connection_info` are external wall-clock state
and are not modelled). -/
structure GameContext where
  session_id : ℕ
  game_state : ℕ
  character_id : Option ℕ
  account_id : Option ℕ
  remote_addr : List ℕ
  deriving DecidableEq, Repr

/-- A registered `GameMessageHandler`: its async `handle` is modelled as a
function from (packet id, data, context) to the awaited result together
with the context as mutated by the call. -/
structure GameMessageHandler where
  handle : ℕ → List ℕ → GameContext → Except Unit (Option (List ℕ)) × GameContext
  opcode : ℕ

/-- `DispatcherStats`: the four counters. -/
structure DispatcherStats where
  messages_processed : ℕ
  messages_success : ℕ
  messages_failed : ℕ
  messages_unhandled : ℕ
  deriving DecidableEq, Repr

/-- `DispatcherStats::default`: all counters zero. -/
def DispatcherStats.default : DispatcherStats :=
  { messages_processed := 0, messages_success := 0,
    messages_failed := 0, messages_unhandled := 0 }

/-- `MessageDispatcher`: the `HandlerRegistry` (a `HashMap` lookup, modelled
as its lookup function) plus the statistics. -/
structure MessageDispatcher where
  registry : ℕ → Option GameMessageHandler
  stats : DispatcherStats

/-- `MessageDispatcher::new` with a given registry contents (registration
happens at startup and never touches the statistics). -/
def MessageDispatcher.mk0 (registry : ℕ → Option GameMessageHandler) :
    MessageDispatcher :=
  { registry := registry, stats := DispatcherStats.default }

/-- `MessageDispatcher::register_handler`: insert by the handler's
self-reported opcode. -/
def MessageDispatcher.register_handler (d : MessageDispatcher)
    (h : GameMessageHandler) : MessageDispatcher :=
  { d with registry := fun op => if op = h.opcode then some h else d.registry op }

/-- `MessageDispatcher::dispatch`: count the message, then exactly one of
unhandled (no registered handler), success, or failed. -/
def MessageDispatcher.dispatch (d : MessageDispatcher) (packet_id : ℕ)
    (data : List ℕ) (ctx : GameContext) :
    MessageDispatcher × GameContext × Except Unit (Option (List ℕ)) :=
  let stats1 := { d.stats with
    messages_processed := d.stats.messages_processed + 1 }
  match d.registry packet_id with
  | none =>
    ({ d with stats := { stats1 with
        messages_unhandled := stats1.messages_unhandled + 1 } }, ctx, .ok none)
  | some h =>
    match h.handle packet_id data ctx with
    | (.ok response, ctx1) =>
      ({ d with stats := { stats1 with
          messages_success := stats1.messages_success + 1 } }, ctx1, .ok response)
    | (.error e, ctx1) =>
      ({ d with stats := { stats1 with
          messages_failed := stats1.messages_failed + 1 } }, ctx1, .error e)

/-- `MessageDispatcher::reset_stats`. -/
def MessageDispatcher.reset_stats (d : MessageDispatcher) : MessageDispatcher :=
  { d with stats := DispatcherStats.default }

/-- Dispatcher values reachable from construction by registration,
dispatch, and statistic resets. -/
inductive MessageDispatcher.Reachable : MessageDispatcher → Prop
  | new (registry : ℕ → Option GameMessageHandler) :
      MessageDispatcher.Reachable (MessageDispatcher.mk0 registry)
  | register (d : MessageDispatcher) (h : GameMessageHandler) :
      MessageDispatcher.Reachable d →
      MessageDispatcher.Reachable (d.register_handler h)
  | step (d : MessageDispatcher) (packet_id : ℕ) (data : List ℕ)
      (ctx : GameContext) :
      MessageDispatcher.Reachable d →
      MessageDispatcher.Reachable (d.dispatch packet_id data ctx).1
  | reset (d : MessageDispatcher) :
      MessageDispatcher.Reachable d →
      MessageDispatcher.Reachable d.reset_stats

/-! ## Helper lemmas -/

/-- Evaluation rule for `PacketFrame.from_bytes` on the success path. -/
theorem from_bytes_ok_of (data : List ℕ) (ps vl : ℕ)
    (h4 : ¬ data.length < 4)
    (hm : data.getD 0 0 + 256 * data.getD 1 0 = 0x5713)
    (hrv : read_varint (data.drop 2) = .ok (ps, vl))
    (hps : ¬ ps > 65536)
    (hc : ¬ data.length < 2 + vl + ps) :
    PacketFrame.from_bytes data =
      .ok ({ magic := 0x5713, payload := (data.drop (2 + vl)).take ps }, 2 + vl + ps) := by
  unfold PacketFrame.from_bytes MIN_PACKET_SIZE MAX_PACKET_SIZE PACKET_MAGIC
  rw [if_neg h4]
  simp only [hm, ne_eq, not_true_eq_false, if_false, ite_false, if_neg]
  rw [hrv]
  have hb : ∀ (f : ℕ × ℕ → Except FrameError (PacketFrame × ℕ)),
      (Except.ok (ps, vl)).bind f = f (ps, vl) := fun _ => rfl
  rw [hb]
  simp only []
  rw [if_neg hps, if_neg hc]

/-- A successful `read_varint` occupies at least two bytes. -/
theorem read_varint_consumed (rest : List ℕ) (ps vl : ℕ)
    (h : read_varint rest = .ok (ps, vl)) : 2 ≤ vl := by
  rcases rest with _ | ⟨sb, r⟩
  · simp [read_varint] at h
  · simp only [read_varint] at h
    by_cases h1 : sb = 1
    · rw [if_pos h1] at h
      rcases r with _ | ⟨b0, r⟩
      · simp at h
      · simp only [Except.ok.injEq, Prod.mk.injEq] at h
        omega
    · rw [if_neg h1] at h
      by_cases h2 : sb = 2
      · rw [if_pos h2] at h
        split at h
        · simp at h
        · simp only [Except.ok.injEq, Prod.mk.injEq] at h
          omega
      · rw [if_neg h2] at h
        by_cases h4 : sb = 4
        · rw [if_pos h4] at h
          split at h
          · simp at h
          · simp only [Except.ok.injEq, Prod.mk.injEq] at h
            omega
        · rw [if_neg h4] at h
          simp at h

/-- A successful `from_bytes` consumes between 4 bytes and the whole
buffer. -/
theorem from_bytes_ok_bounds (data : List ℕ) (p : PacketFrame) (n : ℕ)
    (h : PacketFrame.from_bytes data = .ok (p, n)) :
    4 ≤ n ∧ n ≤ data.length := by
  unfold PacketFrame.from_bytes at h
  split at h
  · exact absurd h (by simp)
  · simp only [] at h
    split at h
    · exact absurd h (by simp)
    · rcases hrv : read_varint (data.drop 2) with e | v
      · rw [hrv] at h
        exact absurd h (by simp [Except.bind])
      · rw [hrv] at h
        have hb : ∀ (f : ℕ × ℕ → Except FrameError (PacketFrame × ℕ)),
            (Except.ok v).bind f = f v := fun _ => rfl
        rw [hb] at h
        simp only [MAX_PACKET_SIZE] at h
        split at h
        · exact absurd h (by simp)
        · split at h
          · exact absurd h (by simp)
          · have hvl : 2 ≤ v.2 := read_varint_consumed _ v.1 v.2 (by rw [hrv])
            simp only [Except.ok.injEq, Prod.mk.injEq] at h
            rename_i hlen4 _ _ hcomp
            omega

/-- The loop of `process_buffer` does not depend on the fuel once the fuel
covers the buffer length, because every parsed frame consumes at least 4
bytes; so `process_buffer` computes the source loop exactly. -/
theorem process_buffer_loop_fuel_irrelevant (f1 : ℕ) :
    ∀ (f2 : ℕ) (buffer : List ℕ), buffer.length ≤ f1 → buffer.length ≤ f2 →
      process_buffer_loop f1 buffer = process_buffer_loop f2 buffer := by
  induction f1 with
  | zero =>
    intro f2 buffer h1 h2
    have hb : buffer = [] := List.length_eq_zero.mp (by omega)
    subst hb
    cases f2 with
    | zero => rfl
    | succ g => simp [process_buffer_loop]
  | succ f ih =>
    intro f2 buffer h1 h2
    cases f2 with
    | zero =>
      have hb : buffer = [] := List.length_eq_zero.mp (by omega)
      subst hb
      simp [process_buffer_loop]
    | succ g =>
      by_cases hlen : buffer.length < 4
      · simp [process_buffer_loop, hlen]
      · by_cases hmagic : buffer.take 2 = [0x13, 0x57]
        · rcases hfb : PacketFrame.from_bytes buffer with e | pr
          · simp [process_buffer_loop, hlen, hmagic, hfb]
          · have hbound := from_bytes_ok_bounds buffer pr.1 pr.2 (by rw [hfb])
            have hrec := ih g (buffer.drop pr.2)
              (by simp only [List.length_drop]; omega)
              (by simp only [List.length_drop]; omega)
            simp [process_buffer_loop, hlen, hmagic, hfb, hrec]
        · simp [process_buffer_loop, hlen, hmagic]

/-- `process_buffer` on a buffer shorter than 4 bytes: break out of the
loop at once, keeping the buffer. -/
theorem process_buffer_short (buffer : List ℕ) (h4 : buffer.length < 4) :
    process_buffer buffer = (buffer, []) := by
  unfold process_buffer
  rcases hn : buffer.length with _ | k
  · rfl
  · simp only [process_buffer_loop]
    rw [if_pos h4]

/-- `process_buffer` on a buffer that fails the magic check: the whole
buffer is discarded at once. -/
theorem process_buffer_bad_magic (buffer : List ℕ) (h4 : ¬ buffer.length < 4)
    (hm : ¬ buffer.take 2 = [0x13, 0x57]) :
    process_buffer buffer = ([], []) := by
  unfold process_buffer
  rcases hn : buffer.length with _ | k
  · omega
  · simp only [process_buffer_loop]
    rw [if_neg h4, if_pos hm]

/-- `process_buffer` on a parse error other than "Incomplete packet": the
whole buffer is discarded at once. -/
theorem process_buffer_fatal_error (buffer : List ℕ) (h4 : ¬ buffer.length < 4)
    (hm : buffer.take 2 = [0x13, 0x57]) (e : FrameError)
    (hfb : PacketFrame.from_bytes buffer = .error e)
    (hni : e.isIncomplete = false) :
    process_buffer buffer = ([], []) := by
  unfold process_buffer
  rcases hn : buffer.length with _ | k
  · omega
  · simp only [process_buffer_loop]
    rw [if_neg h4, if_neg (by simp [hm]), hfb]
    simp only [hni]
    rfl

/-! ## Claim theorems -/

/-- C1: for every payload of at most 65,536 bytes, decoding the bytes
produced by `PacketFrame::to_bytes` yields a frame with the same payload
(and the standard magic) and reports a consumed count equal to the length
of the encoded bytes. -/
theorem frame_encode_decode_roundtrip (payload : List ℕ)
    (hlen : payload.length ≤ 65536) (hbytes : ∀ b ∈ payload, b < 256) :
    PacketFrame.from_bytes (PacketFrame.new payload).to_bytes =
      .ok (PacketFrame.new payload, (PacketFrame.new payload).to_bytes.length) := by
  have hn : payload.length % 4294967296 = payload.length := Nat.mod_eq_of_lt (by omega)
  have hshape : (PacketFrame.new payload).to_bytes =
      19 :: 87 :: (write_varint payload.length ++ payload) := by
    unfold PacketFrame.to_bytes PacketFrame.new PACKET_MAGIC
    norm_num [hn]
  rcases Nat.lt_or_ge payload.length 256 with h1 | h1
  · have hw : write_varint payload.length = [1, payload.length] := by
      unfold write_varint
      rw [if_pos (by omega), Nat.mod_eq_of_lt (by omega)]
    rw [hshape, hw]
    have h := from_bytes_ok_of (19 :: 87 :: ([1, payload.length] ++ payload))
      payload.length 2
      (by simp only [List.length_cons, List.length_append, List.length_nil]; omega)
      (by norm_num) (by simp [read_varint]) (by omega)
      (by simp only [List.length_cons, List.length_append, List.length_nil]; omega)
    rw [h]
    simp [PacketFrame.new, PACKET_MAGIC, hw]
    omega
  · rcases Nat.lt_or_ge payload.length 65536 with h2 | h2
    · have hw : write_varint payload.length =
          [2, payload.length % 256, payload.length / 256 % 256] := by
        unfold write_varint
        rw [if_neg (by omega), if_pos (by omega)]
      have hd : payload.length / 256 % 256 = payload.length / 256 :=
        Nat.mod_eq_of_lt (by omega)
      have hv : payload.length % 256 + 256 * (payload.length / 256 % 256) =
          payload.length := by
        rw [hd]; omega
      rw [hshape, hw]
      have h := from_bytes_ok_of
        (19 :: 87 :: ([2, payload.length % 256, payload.length / 256 % 256] ++ payload))
        payload.length 3
        (by simp only [List.length_cons, List.length_append, List.length_nil]; omega)
        (by norm_num) (by simp [read_varint, hv]) (by omega)
        (by simp only [List.length_cons, List.length_append, List.length_nil]; omega)
      rw [h]
      simp [PacketFrame.new, PACKET_MAGIC, hw]
      omega
    · have h3 : payload.length = 65536 := by omega
      have hw : write_varint payload.length =
          [4, payload.length % 256, payload.length / 256 % 256,
           payload.length / 65536 % 256, payload.length / 16777216 % 256] := by
        unfold write_varint
        rw [if_neg (by omega), if_neg (by omega)]
      have hv : payload.length % 256 + 256 * (payload.length / 256 % 256)
          + 65536 * (payload.length / 65536 % 256)
          + 16777216 * (payload.length / 16777216 % 256) = payload.length := by
        rw [h3]
      rw [hshape, hw]
      have h := from_bytes_ok_of
        (19 :: 87 :: ([4, payload.length % 256, payload.length / 256 % 256,
           payload.length / 65536 % 256, payload.length / 16777216 % 256] ++ payload))
        payload.length 5
        (by simp only [List.length_cons, List.length_append, List.length_nil]; omega)
        (by norm_num) (by simp [read_varint, hv]) (by omega)
        (by simp only [List.length_cons, List.length_append, List.length_nil]; omega)
      rw [h]
      simp [PacketFrame.new, PACKET_MAGIC, hw]
      omega

/-- Witness for C1: the repository's own test frame, payload
`2f 0f 00 00 40`, encodes to 9 bytes and decodes back exactly. -/
theorem frame_encode_decode_roundtrip_witness :
    PacketFrame.from_bytes (PacketFrame.new [0x2f, 0x0f, 0x00, 0x00, 0x40]).to_bytes =
      .ok (PacketFrame.new [0x2f, 0x0f, 0x00, 0x00, 0x40], 9) := by
  have h := frame_encode_decode_roundtrip [0x2f, 0x0f, 0x00, 0x00, 0x40]
    (by decide) (by decide)
  simpa using h

/-- C2: on a framed 0x2F policy request the server writes the 110-byte
NUL-terminated policy XML unframed, then unconditionally the
EncryptionHandshake frame: width byte 2, then opcode `0x04`, the ten
little-endian u32 settings constants, the 16-bit LE DER length, and the
DER key bytes. -/
theorem policy_request_two_replies (env : HandlerEnv) (st : HandlerState)
    (payload derBytes : List ℕ) (hder : derBytes.length < 65493) :
    handle_packet_0x2F env st ProudNetSettings.default derBytes payload =
      [FLASH_POLICY_XML, build_encryption_handshake ProudNetSettings.default derBytes] ∧
    FLASH_POLICY_XML.length = 110 ∧
    FLASH_POLICY_XML.getLast? = some 0 ∧
    build_encryption_handshake ProudNetSettings.default derBytes =
      [0x13, 0x57, 0x02] ++ toLE16 (43 + derBytes.length)
        ++ 0x04 :: ([0x00, 0x00, 0x00, 0x00,
                     0x00, 0x00, 0x00, 0x01,
                     0x01, 0x00, 0xc0, 0x27,
                     0x09, 0x00, 0x01, 0x00,
                     0x3c, 0x00, 0x00, 0x00,
                     0x80, 0x00, 0x00, 0x00,
                     0x00, 0x02, 0x00, 0x00,
                     0x01, 0x00, 0x00, 0x00,
                     0x01, 0x00, 0x00, 0x00,
                     0x00, 0x00, 0x00, 0x02]
             ++ toLE16 derBytes.length ++ derBytes) := by
  have hm1 : derBytes.length % 65536 = derBytes.length := Nat.mod_eq_of_lt (by omega)
  refine ⟨?_, by decide, by decide, ?_⟩
  · simp [handle_packet_0x2F, ProudNetHandler.handle]
  · simp only [build_encryption_handshake, settingsBytes, ProudNetSettings.default,
      toLE32, toLE16, hm1]
    norm_num
    refine ⟨by omega, by omega⟩

/-- Witness for C2 at a 140-byte DER stand-in. -/
theorem policy_request_two_replies_witness :
    handle_packet_0x2F ⟨fun _ => none, 0, [], []⟩ HandlerState.initial
        ProudNetSettings.default (List.replicate 140 0x30) [0x2f] =
      [FLASH_POLICY_XML,
       build_encryption_handshake ProudNetSettings.default (List.replicate 140 0x30)] ∧
    FLASH_POLICY_XML.length = 110 ∧
    FLASH_POLICY_XML.getLast? = some 0 ∧
    build_encryption_handshake ProudNetSettings.default (List.replicate 140 0x30) =
      [0x13, 0x57, 0x02] ++ toLE16 (43 + (List.replicate 140 0x30 : List ℕ).length)
        ++ 0x04 :: ([0x00, 0x00, 0x00, 0x00,
                     0x00, 0x00, 0x00, 0x01,
                     0x01, 0x00, 0xc0, 0x27,
                     0x09, 0x00, 0x01, 0x00,
                     0x3c, 0x00, 0x00, 0x00,
                     0x80, 0x00, 0x00, 0x00,
                     0x00, 0x02, 0x00, 0x00,
                     0x01, 0x00, 0x00, 0x00,
                     0x01, 0x00, 0x00, 0x00,
                     0x00, 0x00, 0x00, 0x02]
             ++ toLE16 (List.replicate 140 0x30 : List ℕ).length
             ++ List.replicate 140 0x30) :=
  policy_request_two_replies ⟨fun _ => none, 0, [], []⟩ HandlerState.initial
    [0x2f] (List.replicate 140 0x30) (by simp)

/-- C3 (code bug): the heartbeat handler echoes `payload[0]` and
`payload[1]` of the full payload — the opcode byte `0x1B` and the first
sequence byte — so the framed reply to `1B 41 42` carries payload
`1D 1B 41` followed by 14 zero bytes, not `1D 41 42`; the handler state is
unchanged. -/
theorem heartbeat_reply_echoes_opcode_byte :
    handle_heartbeat_request [0x1B, 0x41, 0x42] =
      .ok (some ([0x13, 0x57, 0x01, 0x11, 0x1D, 0x1B, 0x41] ++ List.replicate 14 0)) ∧
    ProudNetHandler.handle ⟨fun _ => none, 0, [], []⟩ HandlerState.initial 0x1B
        [0x1B, 0x41, 0x42] =
      (HandlerState.initial,
       .ok (some ([0x13, 0x57, 0x01, 0x11, 0x1D, 0x1B, 0x41] ++ List.replicate 14 0))) ∧
    ¬ ([0x1D, 0x1B, 0x41] : List ℕ) = [0x1D, 0x41, 0x42] := by
  decide

/-- Counterexample to C4: one 0x07 frame sent from the fresh state — with
no key exchange at all — reaches a handler state with a session id
assigned and encryption not ready, so that combination is representable
and reachable. -/
theorem session_without_encryption_reachable :
    HandlerState.Reachable
      (ProudNetHandler.handle ⟨fun _ => none, 12345, List.replicate 16 0,
          [49, 50, 55, 46, 48, 46, 48, 46, 49]⟩ HandlerState.initial 0x07
        (0x07 :: 0x21 :: 0x03 :: List.replicate 20 0)).1 ∧
    (ProudNetHandler.handle ⟨fun _ => none, 12345, List.replicate 16 0,
        [49, 50, 55, 46, 48, 46, 48, 46, 49]⟩ HandlerState.initial 0x07
      (0x07 :: 0x21 :: 0x03 :: List.replicate 20 0)).1.session_id.isSome = true ∧
    (ProudNetHandler.handle ⟨fun _ => none, 12345, List.replicate 16 0,
        [49, 50, 55, 46, 48, 46, 48, 46, 49]⟩ HandlerState.initial 0x07
      (0x07 :: 0x21 :: 0x03 :: List.replicate 20 0)).1.encryption_ready = false :=
  ⟨HandlerState.Reachable.step _ _ _ _ HandlerState.Reachable.init,
   by decide, by decide⟩

/-- C4 as amended: `handle_version_check` assigns a session id on any
accepted 0x07 regardless of the encryption state and leaves
`encryption_ready` unchanged, and no opcode other than 0x05 ever changes
`encryption_ready`; so an assigned session id does not imply encryption
ready. -/
theorem version_check_ignores_encryption_state (env : HandlerEnv)
    (st : HandlerState) (payload : List ℕ) (h : 23 ≤ payload.length) :
    (ProudNetHandler.handle env st 0x07 payload).1.session_id =
      some env.randSessionId ∧
    (ProudNetHandler.handle env st 0x07 payload).1.encryption_ready =
      st.encryption_ready ∧
    ∀ (env2 : HandlerEnv) (st2 : HandlerState) (op : ℕ) (pl : List ℕ),
      ¬ op = 0x05 →
      (ProudNetHandler.handle env2 st2 op pl).1.encryption_ready =
        st2.encryption_ready := by
  refine ⟨?_, ?_, ?_⟩
  · simp [ProudNetHandler.handle, handle_version_check]
    rw [if_neg (by omega)]
  · simp [ProudNetHandler.handle, handle_version_check]
    rw [if_neg (by omega)]
  · intro env2 st2 op pl hop
    unfold ProudNetHandler.handle handle_version_check handle_heartbeat_request
    split_ifs <;> simp_all

/-- Witness for the amended C4, at the fresh state and a 23-byte 0x07
payload. -/
theorem version_check_ignores_encryption_state_witness :
    (ProudNetHandler.handle ⟨fun _ => none, 777, [], []⟩ HandlerState.initial 0x07
      (0x07 :: 0x21 :: 0x03 :: List.replicate 20 0)).1.session_id =
      some (HandlerEnv.mk (fun _ => none) 777 [] []).randSessionId ∧
    (ProudNetHandler.handle ⟨fun _ => none, 777, [], []⟩ HandlerState.initial 0x07
      (0x07 :: 0x21 :: 0x03 :: List.replicate 20 0)).1.encryption_ready =
      HandlerState.initial.encryption_ready ∧
    ∀ (env2 : HandlerEnv) (st2 : HandlerState) (op : ℕ) (pl : List ℕ),
      ¬ op = 0x05 →
      (ProudNetHandler.handle env2 st2 op pl).1.encryption_ready =
        st2.encryption_ready :=
  version_check_ignores_encryption_state ⟨fun _ => none, 777, [], []⟩
    HandlerState.initial (0x07 :: 0x21 :: 0x03 :: List.replicate 20 0) (by simp)

/-- Counterexample to C5: the login server's `process_buffer` has no
special case for the raw 22-byte ASCII policy request; it fails the
`13 57` magic check, the whole buffer is cleared, and no frame — hence no
reply — is produced. -/
theorem raw_policy_request_discarded :
    rawPolicyRequest.length = 22 ∧
    process_buffer rawPolicyRequest = ([], []) := by decide

/-- C5 as amended: any buffer of at least 4 bytes beginning with the raw
policy request bytes `3C 70` (`<p`) is discarded entirely by
`process_buffer` with no frame parsed; the two policy replies are produced
only for a framed 0x2F request. -/
theorem raw_policy_no_special_case :
    rawPolicyRequest.take 2 = [0x3C, 0x70] ∧
    ∀ rest : List ℕ, 2 ≤ rest.length →
      process_buffer (0x3C :: 0x70 :: rest) = ([], []) := by
  refine ⟨by decide, ?_⟩
  intro rest h
  exact process_buffer_bad_magic _ (by simp; omega) (by simp)

/-- Witness for the amended C5: the full raw policy request buffer. -/
theorem raw_policy_no_special_case_witness :
    rawPolicyRequest.take 2 = [0x3C, 0x70] ∧
    2 ≤ (rawPolicyRequest.drop 2).length ∧
    process_buffer (0x3C :: 0x70 :: rawPolicyRequest.drop 2) = ([], []) :=
  ⟨raw_policy_no_special_case.1, by decide,
   raw_policy_no_special_case.2 (rawPolicyRequest.drop 2) (by decide)⟩

/-- Counterexample to C9: the 4-byte buffer `13 57 02 00` (valid magic,
width byte 2, one missing varint byte) is rejected with the
`varintTruncated` error, which the runtime does not treat as transient:
`process_buffer` clears the buffer instead of keeping it. -/
theorem truncated_varint_discards_buffer :
    PacketFrame.from_bytes [0x13, 0x57, 0x02, 0x00] = .error (.varintTruncated 2) ∧
    FrameError.isIncomplete (.varintTruncated 2) = false ∧
    process_buffer [0x13, 0x57, 0x02, 0x00] = ([], []) := by decide

/-- C9 as amended: a buffer shorter than 4 bytes (such as `13 57 01`) is
kept without decoding, while a buffer of at least 4 bytes whose varint
bytes are truncated decodes to the non-transient `varintTruncated` error
and is discarded entirely; only "Incomplete packet" is treated as
transient. -/
theorem truncated_header_not_transient :
    (∀ buffer : List ℕ, buffer.length < 4 → process_buffer buffer = (buffer, [])) ∧
    (∀ (w : ℕ) (rest : List ℕ), (w = 2 ∨ w = 4) → 1 ≤ rest.length → rest.length < w →
      PacketFrame.from_bytes (0x13 :: 0x57 :: w :: rest) = .error (.varintTruncated w) ∧
      FrameError.isIncomplete (.varintTruncated w) = false ∧
      process_buffer (0x13 :: 0x57 :: w :: rest) = ([], [])) := by
  constructor
  · exact fun buffer h => process_buffer_short buffer h
  · intro w rest hw h1 h2
    have hfb : PacketFrame.from_bytes (0x13 :: 0x57 :: w :: rest) =
        .error (.varintTruncated w) := by
      rcases hw with rfl | rfl
      · rcases rest with _ | ⟨a, rest2⟩
        · simp at h1
        · have h0 : rest2 = [] := List.length_eq_zero.mp (by simp at h2; omega)
          subst h0
          unfold PacketFrame.from_bytes MIN_PACKET_SIZE MAX_PACKET_SIZE PACKET_MAGIC
          norm_num [read_varint, Except.bind]
      · rcases rest with _ | ⟨a, rest2⟩
        · simp at h1
        · rcases rest2 with _ | ⟨b, rest3⟩
          · unfold PacketFrame.from_bytes MIN_PACKET_SIZE MAX_PACKET_SIZE PACKET_MAGIC
            norm_num [read_varint, Except.bind]
          · rcases rest3 with _ | ⟨c, rest4⟩
            · unfold PacketFrame.from_bytes MIN_PACKET_SIZE MAX_PACKET_SIZE PACKET_MAGIC
              norm_num [read_varint, Except.bind]
            · have h0 : rest4 = [] := List.length_eq_zero.mp (by simp at h2; omega)
              subst h0
              unfold PacketFrame.from_bytes MIN_PACKET_SIZE MAX_PACKET_SIZE PACKET_MAGIC
              norm_num [read_varint, Except.bind]
    refine ⟨hfb, by rcases hw with rfl | rfl <;> rfl, ?_⟩
    exact process_buffer_fatal_error _ (by simp; omega) (by simp)
      _ hfb (by rcases hw with rfl | rfl <;> rfl)

/-- Witness for the amended C9: width 2 with a single further byte. -/
theorem truncated_header_not_transient_witness :
    PacketFrame.from_bytes (0x13 :: 0x57 :: 2 :: [0x00]) = .error (.varintTruncated 2) ∧
    FrameError.isIncomplete (.varintTruncated 2) = false ∧
    process_buffer (0x13 :: 0x57 :: 2 :: [0x00]) = ([], []) :=
  truncated_header_not_transient.2 2 [0x00] (Or.inl rfl) (by decide) (by decide)

set_option maxRecDepth 100000 in
/-- C6 (code bug): `decrypt_packet_0x25` insists on `payload[0] == 0x25`,
so a `0x26` envelope — which the login server's `0x25 | 0x26` match arm
routes to the same decryption path — always fails with "Not a 0x25 packet"
and is never decrypted or dispatched, while the byte-identical `0x25`
envelope decrypts. -/
theorem envelope_0x26_rejected :
    decrypt_packet_0x25 ⟨some (List.replicate 16 0)⟩
        ([0x26, 0x01, 0x01, 0x20] ++ List.replicate 16 0) = .error .notPacket25 ∧
    decrypt_packet_0x25 ⟨some (List.replicate 16 0)⟩
        ([0x25, 0x01, 0x01, 0x20] ++ List.replicate 16 0) =
      .ok [0x14, 0x0f, 0x0f, 0x10, 0x11, 0xb5, 0x22, 0x3d,
           0x79, 0x58, 0x77, 0x17, 0xff, 0xd9, 0xec, 0x3a] := by
  exact ⟨by decide, by decide⟩

/-- Counterexample to C7: with a session key installed, AES decryption of
the zero-byte input succeeds with an empty output (0 is a multiple of 16),
instead of failing with `InvalidAesLength`. -/
theorem aes_decrypt_empty_input_ok :
    decrypt_aes_ecb ⟨some (List.replicate 16 0)⟩ [] = .ok [] := by decide

/-- C7 as amended: the length check of `decrypt_aes_ecb` rejects exactly
the lengths that are not a multiple of 16; the zero-byte input passes it
and yields an empty output. -/
theorem aes_decrypt_length_check (crypto : ProudNetCrypto) (key : List ℕ)
    (hk : crypto.aes_key = some key) :
    decrypt_aes_ecb crypto [] = .ok [] ∧
    ∀ data : List ℕ, ¬ data.length % 16 = 0 →
      decrypt_aes_ecb crypto data = .error .invalidAesLength := by
  constructor
  · simp [decrypt_aes_ecb, hk, aesEcbDecryptBlocks, chunks16]
  · intro data hd
    simp only [decrypt_aes_ecb, hk]
    rw [if_pos hd]

/-- Witness for the amended C7: empty input accepted, 1-byte input
rejected. -/
theorem aes_decrypt_length_check_witness :
    decrypt_aes_ecb ⟨some (List.replicate 16 0)⟩ [] = .ok [] ∧
    decrypt_aes_ecb ⟨some (List.replicate 16 0)⟩ [0] = .error .invalidAesLength :=
  ⟨(aes_decrypt_length_check ⟨some (List.replicate 16 0)⟩ (List.replicate 16 0) rfl).1,
   (aes_decrypt_length_check ⟨some (List.replicate 16 0)⟩ (List.replicate 16 0) rfl).2
     [0] (by decide)⟩

set_option maxRecDepth 100000 in
/-- Counterexample to C8: the all-zero 16-byte ciphertext under the
all-zero key block-decrypts to data ending in byte `0x3a` (58, outside
[1,16]), yet `decrypt_aes_ecb` returns it unchanged with `ok` — there is
no `InvalidPadding` error path. -/
theorem aes_bad_final_byte_not_rejected :
    aesEcbDecryptBlocks (List.replicate 16 0) (List.replicate 16 0) =
      [0x14, 0x0f, 0x0f, 0x10, 0x11, 0xb5, 0x22, 0x3d,
       0x79, 0x58, 0x77, 0x17, 0xff, 0xd9, 0xec, 0x3a] ∧
    (aesEcbDecryptBlocks (List.replicate 16 0) (List.replicate 16 0)).getLast? =
      some 0x3a ∧
    16 < 0x3a ∧
    decrypt_aes_ecb ⟨some (List.replicate 16 0)⟩ (List.replicate 16 0) =
      .ok (aesEcbDecryptBlocks (List.replicate 16 0) (List.replicate 16 0)) := by
  refine ⟨by decide, by decide, by decide, by decide⟩

/-- C8 as amended: for input of nonzero-multiple-of-16 length (b the final
block-decrypted byte), `decrypt_aes_ecb` strips b bytes when b lies in
[1,16] and otherwise returns the block-decrypted data unchanged — it never
fails on bad padding. -/
theorem aes_padding_validation (crypto : ProudNetCrypto) (key data : List ℕ) (b : ℕ)
    (hk : crypto.aes_key = some key) (hlen : data.length % 16 = 0)
    (hlast : (aesEcbDecryptBlocks key data).getLast? = some b) :
    (1 ≤ b ∧ b ≤ 16 →
      decrypt_aes_ecb crypto data =
        .ok ((aesEcbDecryptBlocks key data).take
          ((aesEcbDecryptBlocks key data).length - b))) ∧
    (¬ (1 ≤ b ∧ b ≤ 16) →
      decrypt_aes_ecb crypto data = .ok (aesEcbDecryptBlocks key data)) := by
  constructor
  · intro hb
    simp only [decrypt_aes_ecb, hk, hlen, hlast]
    rw [if_neg (by simp), if_pos (by omega : 0 < b ∧ b ≤ 16)]
  · intro hb
    simp only [decrypt_aes_ecb, hk, hlen, hlast]
    rw [if_neg (by simp), if_neg (by omega : ¬ (0 < b ∧ b ≤ 16))]

set_option maxRecDepth 100000 in
/-- Witness for the amended C8, at the all-zero block whose decryption
ends in `0x3a`. -/
theorem aes_padding_validation_witness :
    decrypt_aes_ecb ⟨some (List.replicate 16 0)⟩ (List.replicate 16 0) =
      .ok (aesEcbDecryptBlocks (List.replicate 16 0) (List.replicate 16 0)) :=
  (aes_padding_validation ⟨some (List.replicate 16 0)⟩ (List.replicate 16 0)
      (List.replicate 16 0) 0x3a rfl (by decide) (by decide)).2 (by decide)

/-- Each `dispatch` call increments `messages_processed` and exactly one
of the other three counters. -/
theorem dispatch_stats_delta (d : MessageDispatcher) (packet_id : ℕ)
    (data : List ℕ) (ctx : GameContext) :
    (d.dispatch packet_id data ctx).1.stats.messages_processed =
      d.stats.messages_processed + 1 ∧
    (((d.dispatch packet_id data ctx).1.stats.messages_success =
        d.stats.messages_success + 1 ∧
      (d.dispatch packet_id data ctx).1.stats.messages_failed =
        d.stats.messages_failed ∧
      (d.dispatch packet_id data ctx).1.stats.messages_unhandled =
        d.stats.messages_unhandled) ∨
     ((d.dispatch packet_id data ctx).1.stats.messages_success =
        d.stats.messages_success ∧
      (d.dispatch packet_id data ctx).1.stats.messages_failed =
        d.stats.messages_failed + 1 ∧
      (d.dispatch packet_id data ctx).1.stats.messages_unhandled =
        d.stats.messages_unhandled) ∨
     ((d.dispatch packet_id data ctx).1.stats.messages_success =
        d.stats.messages_success ∧
      (d.dispatch packet_id data ctx).1.stats.messages_failed =
        d.stats.messages_failed ∧
      (d.dispatch packet_id data ctx).1.stats.messages_unhandled =
        d.stats.messages_unhandled + 1)) := by
  unfold MessageDispatcher.dispatch
  rcases hreg : d.registry packet_id with _ | h
  · simp [hreg]
  · rcases hh : h.handle packet_id data ctx with ⟨res, ctx1⟩
    rcases res with e | r
    · simp [hreg, hh]
    · simp [hreg, hh]

/-- C10: in every dispatcher state reachable by construction,
registration, dispatches and resets, `messages_processed` equals the sum
of the other three counters; and each dispatch adds one to
`messages_processed` and to exactly one of success/failed/unhandled,
decreasing nothing. -/
theorem dispatch_stats_accounting :
    (∀ d : MessageDispatcher, d.Reachable →
      d.stats.messages_processed =
        d.stats.messages_success + d.stats.messages_failed +
          d.stats.messages_unhandled) ∧
    (∀ (d : MessageDispatcher) (packet_id : ℕ) (data : List ℕ) (ctx : GameContext),
      (d.dispatch packet_id data ctx).1.stats.messages_processed =
        d.stats.messages_processed + 1 ∧
      (((d.dispatch packet_id data ctx).1.stats.messages_success =
          d.stats.messages_success + 1 ∧
        (d.dispatch packet_id data ctx).1.stats.messages_failed =
          d.stats.messages_failed ∧
        (d.dispatch packet_id data ctx).1.stats.messages_unhandled =
          d.stats.messages_unhandled) ∨
       ((d.dispatch packet_id data ctx).1.stats.messages_success =
          d.stats.messages_success ∧
        (d.dispatch packet_id data ctx).1.stats.messages_failed =
          d.stats.messages_failed + 1 ∧
        (d.dispatch packet_id data ctx).1.stats.messages_unhandled =
          d.stats.messages_unhandled) ∨
       ((d.dispatch packet_id data ctx).1.stats.messages_success =
          d.stats.messages_success ∧
        (d.dispatch packet_id data ctx).1.stats.messages_failed =
          d.stats.messages_failed ∧
        (d.dispatch packet_id data ctx).1.stats.messages_unhandled =
          d.stats.messages_unhandled + 1))) := by
  constructor
  · intro d hr
    induction hr with
    | new registry => simp [MessageDispatcher.mk0, DispatcherStats.default]
    | register d h _ ih => simpa [MessageDispatcher.register_handler] using ih
    | step d packet_id data ctx _ ih =>
      obtain ⟨hp, hone⟩ := dispatch_stats_delta d packet_id data ctx
      rcases hone with ⟨h1, h2, h3⟩ | ⟨h1, h2, h3⟩ | ⟨h1, h2, h3⟩ <;> omega
    | reset d _ _ => simp [MessageDispatcher.reset_stats, DispatcherStats.default]
  · exact dispatch_stats_delta

/-- Witness for C10: the dispatcher reached by one dispatch against an
empty registry satisfies the counter identity. -/
theorem dispatch_stats_accounting_witness :
    ((MessageDispatcher.mk0 (fun _ => none)).dispatch 0x1001 []
        ⟨123, 0, none, none, []⟩).1.stats.messages_processed =
      ((MessageDispatcher.mk0 (fun _ => none)).dispatch 0x1001 []
          ⟨123, 0, none, none, []⟩).1.stats.messages_success +
      ((MessageDispatcher.mk0 (fun _ => none)).dispatch 0x1001 []
          ⟨123, 0, none, none, []⟩).1.stats.messages_failed +
      ((MessageDispatcher.mk0 (fun _ => none)).dispatch 0x1001 []
          ⟨123, 0, none, none, []⟩).1.stats.messages_unhandled :=
  dispatch_stats_accounting.1 _
    (MessageDispatcher.Reachable.step _ _ _ _ (MessageDispatcher.Reachable.new _))

end Ragnoria
